import Mathlib

/-!
Shallow embedding of the `es-example-bank-accounts` repository.

Amounts are exact decimals in the source (`Decimal`); the only operations
used are addition, negation and comparison, so they are embedded as `Rat`.
Aggregate ids (`UUID`) are embedded as `Nat`; a repository is a total map
from ids to aggregates.

A Python aggregate method either raises, or stages events on the aggregate
(each `__trigger_event__` call applies the event's `mutate` to `self` and
appends the event to the pending list).  `MethodResult` records all three
observable effects: the (possibly mutated) aggregate, the staged events,
and the raised exception if any.
-/

namespace BankAccounts

/-- Domain errors (`bankaccounts.exceptions`): `AccountClosedError` and
`InsufficientFundsError`, both `TransactionError`s carrying `{account_id}`. -/
inductive TransactionError where
  | accountClosed (account_id : Nat)
  | insufficientFunds (account_id : Nat)
  deriving DecidableEq, Repr

/-- The `BankAccount` aggregate state (`bankaccounts.domainmodel.BankAccount`):
`balance`, `overdraft_limit`, `is_closed`, plus the aggregate `id`. -/
structure BankAccount where
  id : Nat
  balance : Rat
  overdraft_limit : Rat
  is_closed : Bool
  deriving DecidableEq, Repr

/-- Events of the `BankAccount` aggregate. -/
inductive BankAccountEvent where
  | transactionAppended (amount : Rat) (transaction_id : Option Nat)
  | overdraftLimitSet (overdraft_limit : Rat)
  | closed
  | errorRecorded (error : TransactionError) (transaction_id : Option Nat)
  deriving DecidableEq, Repr

/-- `mutate` of each `BankAccount` event: `TransactionAppended` adds the
amount to the balance, `OverdraftLimitSet` replaces the overdraft limit,
`Closed` sets `is_closed`; `ErrorRecorded` defines no `mutate`, so it
leaves the state as the library default does. -/
def BankAccountEvent.mutate (e : BankAccountEvent) (a : BankAccount) : BankAccount :=
  match e with
  | .transactionAppended amount _ => { a with balance := a.balance + amount }
  | .overdraftLimitSet limit => { a with overdraft_limit := limit }
  | .closed => { a with is_closed := true }
  | .errorRecorded _ _ => a

/-- Result of running one aggregate method: the aggregate afterwards, the
events staged by `__trigger_event__`, and the exception raised, if any. -/
structure MethodResult where
  account : BankAccount
  events : List BankAccountEvent
  raised : Option TransactionError
  deriving DecidableEq, Repr

/-- `__trigger_event__`: apply the event's `mutate` to the aggregate and
stage the event. -/
def trigger (a : BankAccount) (e : BankAccountEvent) : MethodResult :=
  ⟨e.mutate a, [e], none⟩

/-- `BankAccount.check_account_is_not_closed`: raises `AccountClosedError`
when `is_closed`. -/
def check_account_is_not_closed (a : BankAccount) : Option TransactionError :=
  if a.is_closed then some (.accountClosed a.id) else none

/-- `BankAccount.check_has_sufficient_funds`: raises `InsufficientFundsError`
when `balance + amount < -overdraft_limit`. -/
def check_has_sufficient_funds (a : BankAccount) (amount : Rat) : Option TransactionError :=
  if a.balance + amount < -a.overdraft_limit then some (.insufficientFunds a.id) else none

/-- `BankAccount.append_transaction`: closed check, then funds check, then
trigger `TransactionAppended{amount, transaction_id}`. -/
def BankAccount.append_transaction (a : BankAccount) (amount : Rat)
    (transaction_id : Option Nat) : MethodResult :=
  match check_account_is_not_closed a with
  | some e => ⟨a, [], some e⟩
  | none =>
    match check_has_sufficient_funds a amount with
    | some e => ⟨a, [], some e⟩
    | none => trigger a (.transactionAppended amount transaction_id)

/-- `BankAccount.set_overdraft_limit`: `assert overdraft_limit > 0` (a
fatal assertion, embedded as `none`), then the closed check, then trigger
`OverdraftLimitSet`. -/
def BankAccount.set_overdraft_limit (a : BankAccount) (overdraft_limit : Rat) :
    Option MethodResult :=
  if 0 < overdraft_limit then
    some (match check_account_is_not_closed a with
      | some e => ⟨a, [], some e⟩
      | none => trigger a (.overdraftLimitSet overdraft_limit))
  else
    none

/-- `BankAccount.close`: unconditionally trigger `Closed`. -/
def BankAccount.close (a : BankAccount) : MethodResult :=
  trigger a .closed

/-- `BankAccount.record_error`: unconditionally trigger
`ErrorRecorded{error, transaction_id}`. -/
def BankAccount.record_error (a : BankAccount) (error : TransactionError)
    (transaction_id : Option Nat) : MethodResult :=
  trigger a (.errorRecorded error transaction_id)

/-- A freshly created account (`BankAccount.__init__`): zero balance, zero
overdraft limit, not closed. -/
def newAccount (id : Nat) : BankAccount :=
  ⟨id, 0, 0, false⟩

/-- The `TransferFundsSaga` aggregate state (`bankaccounts.system.sagas`):
the `BaseSaga` fields (`has_succeeded`, `has_errored`, `errors`) plus the
transfer fields (`debit_account_id`, `credit_account_id`, `amount`,
`has_debit_account_debited`). -/
structure TransferFundsSaga where
  debit_account_id : Nat
  credit_account_id : Nat
  amount : Rat
  has_debit_account_debited : Bool
  has_succeeded : Bool
  has_errored : Bool
  errors : List TransactionError
  deriving DecidableEq, Repr

/-- Events of the `TransferFundsSaga` aggregate.  `Errored` carries an
optional error object (`record_has_errored(error=None)`). -/
inductive SagaEvent where
  | succeeded
  | errored (error : Option TransactionError)
  | creditAccountCreditRequired (credit_account_id : Nat) (amount : Rat)
  | debitAccountRefundRequired (debit_account_id : Nat) (amount : Rat)
      (credit_account_error : TransactionError)
  deriving DecidableEq, Repr

/-- `mutate` of each saga event: `Succeeded` sets `has_succeeded`;
`Errored` sets `has_errored` and appends the error when one is carried
(`if self.error: obj.errors.append(self.error)`);
`CreditAccountCreditRequired` sets `has_debit_account_debited`;
`DebitAccountRefundRequired` appends the credit-leg error to `errors`. -/
def SagaEvent.mutate (e : SagaEvent) (s : TransferFundsSaga) : TransferFundsSaga :=
  match e with
  | .succeeded => { s with has_succeeded := true }
  | .errored error =>
    match error with
    | some err => { s with has_errored := true, errors := s.errors ++ [err] }
    | none => { s with has_errored := true }
  | .creditAccountCreditRequired _ _ => { s with has_debit_account_debited := true }
  | .debitAccountRefundRequired _ _ err => { s with errors := s.errors ++ [err] }

/-- `__trigger_event__` on a saga: apply `mutate` and stage the event. -/
def triggerSaga (s : TransferFundsSaga) (e : SagaEvent) :
    TransferFundsSaga × List SagaEvent :=
  (e.mutate s, [e])

/-- The attributes of a `BankAccount.TransactionAppended` event as the
saga handlers read them: `originator_id`, `amount`, `transaction_id`. -/
structure TransactionAppendedNotice where
  originator_id : Nat
  amount : Rat
  transaction_id : Option Nat
  deriving DecidableEq, Repr

/-- The attributes of a `BankAccount.ErrorRecorded` event as the saga
handlers read them. -/
structure ErrorRecordedNotice where
  originator_id : Nat
  error : TransactionError
  transaction_id : Option Nat
  deriving DecidableEq, Repr

/-- `TransferFundsSaga.was_debit_account_debited`. -/
def TransferFundsSaga.was_debit_account_debited (s : TransferFundsSaga)
    (e : TransactionAppendedNotice) : Bool :=
  s.has_debit_account_debited == false
    && e.originator_id == s.debit_account_id
    && decide (e.amount = -s.amount)

/-- `TransferFundsSaga.was_credit_account_credited`. -/
def TransferFundsSaga.was_credit_account_credited (s : TransferFundsSaga)
    (e : TransactionAppendedNotice) : Bool :=
  s.has_debit_account_debited == true
    && e.originator_id == s.credit_account_id
    && decide (e.amount = s.amount)

/-- `TransferFundsSaga.was_debit_account_refunded`. -/
def TransferFundsSaga.was_debit_account_refunded (s : TransferFundsSaga)
    (e : TransactionAppendedNotice) : Bool :=
  s.has_debit_account_debited == true
    && e.originator_id == s.debit_account_id
    && decide (e.amount = s.amount)

/-- `TransferFundsSaga.require_credit_account_credit`: trigger
`CreditAccountCreditRequired{credit_account_id, amount}`. -/
def TransferFundsSaga.require_credit_account_credit (s : TransferFundsSaga) :
    TransferFundsSaga × List SagaEvent :=
  triggerSaga s (.creditAccountCreditRequired s.credit_account_id s.amount)

/-- `record_has_succeeded`: trigger `Succeeded`. -/
def TransferFundsSaga.record_has_succeeded (s : TransferFundsSaga) :
    TransferFundsSaga × List SagaEvent :=
  triggerSaga s .succeeded

/-- `record_has_errored(error)`: trigger `Errored{error}`. -/
def TransferFundsSaga.record_has_errored (s : TransferFundsSaga)
    (error : Option TransactionError) : TransferFundsSaga × List SagaEvent :=
  triggerSaga s (.errored error)

/-- `TransferFundsSaga.require_debit_account_refund`: trigger
`DebitAccountRefundRequired{debit_account_id, amount, credit_account_error}`. -/
def TransferFundsSaga.require_debit_account_refund (s : TransferFundsSaga)
    (credit_account_error : TransactionError) : TransferFundsSaga × List SagaEvent :=
  triggerSaga s (.debitAccountRefundRequired s.debit_account_id s.amount
    credit_account_error)

/-- `TransferFundsSaga.on_bank_account_transaction_appended`: the three
guarded branches, in source order, else nothing. -/
def TransferFundsSaga.on_bank_account_transaction_appended (s : TransferFundsSaga)
    (e : TransactionAppendedNotice) : TransferFundsSaga × List SagaEvent :=
  if s.was_debit_account_debited e then
    s.require_credit_account_credit
  else if s.was_credit_account_credited e then
    s.record_has_succeeded
  else if s.was_debit_account_refunded e then
    s.record_has_errored none
  else
    (s, [])

/-- `TransferFundsSaga.has_debit_account_errored`. -/
def TransferFundsSaga.has_debit_account_errored (s : TransferFundsSaga)
    (e : ErrorRecordedNotice) : Bool :=
  e.originator_id == s.debit_account_id

/-- `TransferFundsSaga.has_credit_account_errored`. -/
def TransferFundsSaga.has_credit_account_errored (s : TransferFundsSaga)
    (e : ErrorRecordedNotice) : Bool :=
  e.originator_id == s.credit_account_id

/-- `TransferFundsSaga.on_bank_account_error_recorded`: debit branch first,
then credit branch, else nothing. -/
def TransferFundsSaga.on_bank_account_error_recorded (s : TransferFundsSaga)
    (e : ErrorRecordedNotice) : TransferFundsSaga × List SagaEvent :=
  if s.has_debit_account_errored e then
    s.record_has_errored (some e.error)
  else if s.has_credit_account_errored e then
    s.require_debit_account_refund e.error
  else
    (s, [])

/-- The saga created by the Sagas policy on `TransferFundsCommand.Created`
(`TransferFundsSaga.__create__` plus `__init__`). -/
def newTransferFundsSaga (debit_account_id credit_account_id : Nat)
    (amount : Rat) : TransferFundsSaga :=
  { debit_account_id := debit_account_id
    credit_account_id := credit_account_id
    amount := amount
    has_debit_account_debited := false
    has_succeeded := false
    has_errored := false
    errors := [] }

/-- A repository of bank accounts, one per aggregate id. -/
def Store : Type := Nat → BankAccount

/-- Saving a rebuilt-and-mutated aggregate back under its id. -/
def updateStore (store : Store) (account_id : Nat) (a : BankAccount) : Store :=
  fun j => if j = account_id then a else store j

/-- `Accounts._append_transaction`: load the account, call
`append_transaction(amount, transaction_id)`; on a `TransactionError`
call `record_error(error, transaction_id)` on the same aggregate.  Returns
the saved repository and the events staged on the aggregate. -/
def appendTransactionPolicy (store : Store) (transaction_id account_id : Nat)
    (amount : Rat) : Store × List BankAccountEvent :=
  let account := store account_id
  let r := account.append_transaction amount (some transaction_id)
  match r.raised with
  | none => (updateStore store account_id r.account, r.events)
  | some e =>
    let r2 := r.account.record_error e (some transaction_id)
    (updateStore store account_id r2.account, r.events ++ r2.events)

/-- The Sagas policy routing one `BankAccount` event to a transfer saga:
`TransactionAppended` goes to `on_bank_account_transaction_appended`;
`ErrorRecorded` goes to `on_bank_account_error_recorded` when a
`transaction_id` is present; other account events have no registered
handler. -/
def sagasPolicyOnAccountEvent (saga : TransferFundsSaga) (originator_id : Nat)
    (e : BankAccountEvent) : TransferFundsSaga × List SagaEvent :=
  match e with
  | .transactionAppended amount transaction_id =>
    saga.on_bank_account_transaction_appended ⟨originator_id, amount, transaction_id⟩
  | .errorRecorded error transaction_id =>
    match transaction_id with
    | some _ => saga.on_bank_account_error_recorded ⟨originator_id, error, transaction_id⟩
    | none => (saga, [])
  | _ => (saga, [])

/-- The Accounts policy reaction to one transfer-saga event:
`CreditAccountCreditRequired` appends `+amount` to the credit account,
`DebitAccountRefundRequired` appends `+amount` to the debit account;
terminal saga events produce nothing.  Account events are returned tagged
with their `originator_id`. -/
def accountsPolicyOnSagaEvent (store : Store) (transaction_id : Nat)
    (e : SagaEvent) : Store × List (Nat × BankAccountEvent) :=
  match e with
  | .creditAccountCreditRequired credit_account_id amount =>
    let r := appendTransactionPolicy store transaction_id credit_account_id amount
    (r.1, r.2.map (fun ev => (credit_account_id, ev)))
  | .debitAccountRefundRequired debit_account_id amount _ =>
    let r := appendTransactionPolicy store transaction_id debit_account_id amount
    (r.1, r.2.map (fun ev => (debit_account_id, ev)))
  | _ => (store, [])

/-- The Accounts policy applied to a list of saga events in order. -/
def accountsPolicyOnSagaEvents (store : Store) (transaction_id : Nat) :
    List SagaEvent → Store × List (Nat × BankAccountEvent)
  | [] => (store, [])
  | e :: rest =>
    let r := accountsPolicyOnSagaEvent store transaction_id e
    let r2 := accountsPolicyOnSagaEvents r.1 transaction_id rest
    (r2.1, r.2 ++ r2.2)

/-- The cooperative single-threaded run loop for one transfer saga: each
pending account event is routed to the saga by the Sagas application, the
resulting saga events are processed by the Accounts application, and the
account events the Accounts application produces are queued behind the
remaining ones.  `fuel` bounds the number of processed events. -/
def driver : Nat → Store → Nat → TransferFundsSaga →
    List (Nat × BankAccountEvent) → Store × TransferFundsSaga
  | 0, store, _, saga, _ => (store, saga)
  | _ + 1, store, _, saga, [] => (store, saga)
  | fuel + 1, store, transaction_id, saga, (originator_id, e) :: rest =>
    let rs := sagasPolicyOnAccountEvent saga originator_id e
    let ra := accountsPolicyOnSagaEvents store transaction_id rs.2
    driver fuel ra.1 transaction_id rs.1 (rest ++ ra.2)

/-- One `transfer_funds` command run to quiescence through the pipeline
`Commands → Sagas → Accounts → Sagas`: the Sagas application creates the
saga from `TransferFundsCommand.Created`, the Accounts application reacts
to `TransferFundsSaga.Created` by appending `-amount` to the debit
account, and the loop then drains all events.  A transfer needs at most
four account events (debit leg, credit leg, refund leg, and the terminal
round that produces none), so fuel `8` reaches quiescence. -/
def runTransferSaga (store : Store) (debit_account_id credit_account_id : Nat)
    (amount : Rat) (transaction_id : Nat) : Store × TransferFundsSaga :=
  let saga := newTransferFundsSaga debit_account_id credit_account_id amount
  let r := appendTransactionPolicy store transaction_id debit_account_id (-amount)
  driver 8 r.1 transaction_id saga (r.2.map (fun ev => (debit_account_id, ev)))

/-- What `BankAccountApplication.transfer_funds` can fail with: a
`TransactionError` raised by an `append_transaction` before `save`, or a
concurrency conflict raised by the batch `save` itself. -/
inductive TransferFundsError where
  | transaction (error : TransactionError)
  | concurrencyConflict
  deriving DecidableEq, Repr

/-- Modelled from the spec: `SimpleApplication.save([debit_account,
credit_account])` — the batch-save semantics live in the external
`eventsourcing` runtime, not under `src/`.  Per spec sections 4.1 and 5.1
the append is atomic across the batch and each stream's
`originator_version`s must stay gapless.  The two aggregates were rebuilt
from the persisted store, so each staged event carries that stream's next
version; when the two aggregates are the same stream (equal ids) the two
events carry the same version, the batch cannot persist both, and it is
rejected as a concurrency conflict with nothing saved.  Otherwise both
aggregates' events persist. -/
def save_two (store : Store) (debit_account_id credit_account_id : Nat)
    (debit_account credit_account : BankAccount) :
    Store × Option TransferFundsError :=
  if debit_account_id = credit_account_id then
    (store, some .concurrencyConflict)
  else
    (updateStore (updateStore store debit_account_id debit_account)
      credit_account_id credit_account, none)

/-- `BankAccountApplication.transfer_funds`: load both accounts, append
`-amount` to the debit account, append `+amount` to the credit account,
and only then save both aggregates in one batch (`save_two`).  The
returned store is the persisted state: unchanged whenever an error
occurred. -/
def transfer_funds (store : Store) (debit_account_id credit_account_id : Nat)
    (amount : Rat) : Store × Option TransferFundsError :=
  let debit_account := store debit_account_id
  let credit_account := store credit_account_id
  let r1 := debit_account.append_transaction (-amount) none
  match r1.raised with
  | some e => (store, some (.transaction e))
  | none =>
    let r2 := credit_account.append_transaction amount none
    match r2.raised with
    | some e => (store, some (.transaction e))
    | none =>
      save_two store debit_account_id credit_account_id r1.account r2.account

/-- One successful `BankAccount` operation, as a step relation: a
non-raising `append_transaction`, a non-raising (and non-asserting)
`set_overdraft_limit`, or a `close`. -/
inductive AccountStep : BankAccount → BankAccount → Prop where
  | append (a : BankAccount) (amount : Rat) (transaction_id : Option Nat)
      (h : (a.append_transaction amount transaction_id).raised = none) :
      AccountStep a (a.append_transaction amount transaction_id).account
  | setLimit (a : BankAccount) (limit : Rat) (r : MethodResult)
      (h : a.set_overdraft_limit limit = some r) (h2 : r.raised = none) :
      AccountStep a r.account
  | close (a : BankAccount) : AccountStep a a.close.account

/-- `AccountStep`, with each `set_overdraft_limit` call additionally
guarded by `-balance ≤ limit` at the time of the call. -/
inductive GuardedAccountStep : BankAccount → BankAccount → Prop where
  | append (a : BankAccount) (amount : Rat) (transaction_id : Option Nat)
      (h : (a.append_transaction amount transaction_id).raised = none) :
      GuardedAccountStep a (a.append_transaction amount transaction_id).account
  | setLimit (a : BankAccount) (limit : Rat) (r : MethodResult)
      (hg : -a.balance ≤ limit)
      (h : a.set_overdraft_limit limit = some r) (h2 : r.raised = none) :
      GuardedAccountStep a r.account
  | close (a : BankAccount) : GuardedAccountStep a a.close.account

/-- Account solvency: `balance ≥ -overdraft_limit`. -/
def solvent (a : BankAccount) : Prop :=
  -a.overdraft_limit ≤ a.balance

instance (a : BankAccount) : Decidable (solvent a) := by
  unfold solvent; infer_instance

/-! Helper lemmas shared by the claim theorems. -/

lemma updateStore_same (store : Store) (aid : Nat) (a : BankAccount) :
    updateStore store aid a aid = a := by
  simp [updateStore]

lemma updateStore_other (store : Store) (aid : Nat) (a : BankAccount) (j : Nat)
    (h : j ≠ aid) : updateStore store aid a j = store j := by
  simp [updateStore, h]

lemma append_transaction_of_closed (a : BankAccount) (amount : Rat)
    (tid : Option Nat) (h : a.is_closed = true) :
    a.append_transaction amount tid = ⟨a, [], some (.accountClosed a.id)⟩ := by
  simp [BankAccount.append_transaction, check_account_is_not_closed, h]

lemma append_transaction_of_insufficient (a : BankAccount) (amount : Rat)
    (tid : Option Nat) (h : a.is_closed = false)
    (h2 : a.balance + amount < -a.overdraft_limit) :
    a.append_transaction amount tid = ⟨a, [], some (.insufficientFunds a.id)⟩ := by
  simp [BankAccount.append_transaction, check_account_is_not_closed,
    check_has_sufficient_funds, h, h2]

lemma append_transaction_of_ok (a : BankAccount) (amount : Rat)
    (tid : Option Nat) (h : a.is_closed = false)
    (h2 : ¬(a.balance + amount < -a.overdraft_limit)) :
    a.append_transaction amount tid =
      ⟨{ a with balance := a.balance + amount },
        [.transactionAppended amount tid], none⟩ := by
  simp [BankAccount.append_transaction, check_account_is_not_closed,
    check_has_sufficient_funds, trigger, BankAccountEvent.mutate, h, h2]

lemma set_overdraft_limit_of_nonpos (a : BankAccount) (limit : Rat)
    (h : limit ≤ 0) : a.set_overdraft_limit limit = none := by
  simp [BankAccount.set_overdraft_limit, not_lt.mpr h]

lemma set_overdraft_limit_of_closed (a : BankAccount) (limit : Rat)
    (h : 0 < limit) (h2 : a.is_closed = true) :
    a.set_overdraft_limit limit = some ⟨a, [], some (.accountClosed a.id)⟩ := by
  simp [BankAccount.set_overdraft_limit, check_account_is_not_closed, h, h2]

lemma set_overdraft_limit_of_ok (a : BankAccount) (limit : Rat)
    (h : 0 < limit) (h2 : a.is_closed = false) :
    a.set_overdraft_limit limit =
      some ⟨{ a with overdraft_limit := limit },
        [.overdraftLimitSet limit], none⟩ := by
  simp [BankAccount.set_overdraft_limit, check_account_is_not_closed,
    trigger, BankAccountEvent.mutate, h, h2]

/-- Claim C1: `append_transaction` raises `AccountClosedError({account_id: id})`
whenever the account is closed (regardless of funds, so the closed check comes
first); otherwise raises `InsufficientFundsError({account_id: id})` when
`balance + amount < -overdraft_limit`; otherwise stages exactly the one event
`TransactionAppended{amount, transaction_id}` whose `mutate` sets the balance
to `balance + amount` while `overdraft_limit` and `is_closed` are unchanged.
On either error no event is staged and the state is unchanged. -/
theorem c1_append_transaction (a : BankAccount) (amount : Rat) (tid : Option Nat) :
    (a.is_closed = true →
      a.append_transaction amount tid = ⟨a, [], some (.accountClosed a.id)⟩)
    ∧ (a.is_closed = false → a.balance + amount < -a.overdraft_limit →
      a.append_transaction amount tid = ⟨a, [], some (.insufficientFunds a.id)⟩)
    ∧ (a.is_closed = false → ¬(a.balance + amount < -a.overdraft_limit) →
      a.append_transaction amount tid =
        ⟨{ a with balance := a.balance + amount },
          [.transactionAppended amount tid], none⟩) :=
  ⟨fun h => append_transaction_of_closed a amount tid h,
   fun h h2 => append_transaction_of_insufficient a amount tid h h2,
   fun h h2 => append_transaction_of_ok a amount tid h h2⟩

/-- Claim C1, witnessed on a closed account with insufficient funds: the
closed error wins. -/
theorem c1_append_transaction_witness :
    (⟨7, 0, 0, true⟩ : BankAccount).append_transaction (-5) (some 3) =
      ⟨⟨7, 0, 0, true⟩, [], some (.accountClosed 7)⟩ :=
  (c1_append_transaction ⟨7, 0, 0, true⟩ (-5) (some 3)).1 rfl

/-- Claim C9: `set_overdraft_limit(limit)` fails its fatal assertion exactly
when `limit ≤ 0`, before the closed check (no event, no state change, no
domain error); when `limit > 0` and the account is closed it raises
`AccountClosedError` leaving the state unchanged; when `limit > 0` and the
account is open it stages `OverdraftLimitSet{limit}` whose `mutate` sets
`overdraft_limit := limit` with `balance` and `is_closed` unchanged. -/
theorem c9_set_overdraft_limit (a : BankAccount) (limit : Rat) :
    (limit ≤ 0 → a.set_overdraft_limit limit = none)
    ∧ (0 < limit → a.is_closed = true →
      a.set_overdraft_limit limit = some ⟨a, [], some (.accountClosed a.id)⟩)
    ∧ (0 < limit → a.is_closed = false →
      a.set_overdraft_limit limit =
        some ⟨{ a with overdraft_limit := limit },
          [.overdraftLimitSet limit], none⟩) :=
  ⟨fun h => set_overdraft_limit_of_nonpos a limit h,
   fun h h2 => set_overdraft_limit_of_closed a limit h h2,
   fun h h2 => set_overdraft_limit_of_ok a limit h h2⟩

/-- Claim C9, witnessed: on a closed account the assertion on a non-positive
limit still fires first. -/
theorem c9_set_overdraft_limit_witness :
    (⟨2, 10, 1, true⟩ : BankAccount).set_overdraft_limit (-3) = none :=
  (c9_set_overdraft_limit ⟨2, 10, 1, true⟩ (-3)).1 (by norm_num)

/-- Claim C7: the Accounts policy primitive `_append_transaction` stages
exactly one event on the target account: `TransactionAppended` carrying the
amount and transaction id when `append_transaction` succeeds, and otherwise
`ErrorRecorded` carrying the raised `TransactionError` and the same
transaction id — never zero events and never two. -/
theorem c7_append_transaction_policy (store : Store) (tid aid : Nat) (amount : Rat) :
    (appendTransactionPolicy store tid aid amount).2.length = 1
    ∧ (((store aid).append_transaction amount (some tid)).raised = none →
      (appendTransactionPolicy store tid aid amount).2 =
        [.transactionAppended amount (some tid)])
    ∧ (∀ e, ((store aid).append_transaction amount (some tid)).raised = some e →
      (appendTransactionPolicy store tid aid amount).2 =
        [.errorRecorded e (some tid)]) := by
  by_cases h : (store aid).is_closed
  · refine ⟨?_, ?_, ?_⟩ <;>
      simp [appendTransactionPolicy, append_transaction_of_closed _ amount (some tid) h,
        BankAccount.record_error, trigger, BankAccountEvent.mutate]
  · by_cases h2 : (store aid).balance + amount < -(store aid).overdraft_limit
    · refine ⟨?_, ?_, ?_⟩ <;>
        simp [appendTransactionPolicy,
          append_transaction_of_insufficient _ amount (some tid) (by simpa using h) h2,
          BankAccount.record_error, trigger, BankAccountEvent.mutate]
    · refine ⟨?_, ?_, ?_⟩ <;>
        simp [appendTransactionPolicy,
          append_transaction_of_ok _ amount (some tid) (by simpa using h) h2,
          BankAccount.record_error, trigger, BankAccountEvent.mutate]

/-- Claim C7, witnessed: a withdrawal that overdraws a fresh account stages
exactly the `ErrorRecorded` event. -/
theorem c7_append_transaction_policy_witness :
    (appendTransactionPolicy (fun i => newAccount i) 4 0 (-1)).2 =
      [.errorRecorded (.insufficientFunds 0) (some 4)] :=
  (c7_append_transaction_policy (fun i => newAccount i) 4 0 (-1)).2.2
    (.insufficientFunds 0)
    (by norm_num [BankAccount.append_transaction, check_account_is_not_closed,
      check_has_sufficient_funds, newAccount])

/-- Claim C2, counterexample: `Succeeded.mutate` only sets `has_succeeded`,
so a saga that has already errored (here: `has_errored = true`, with
`has_debit_account_debited = true`) still has `has_errored = true` after the
matching credit-leg `TransactionAppended`, while the claim asserts it is
false.  The event does match: the handler emits exactly `Succeeded`. -/
theorem c2_counterexample :
    ((⟨0, 1, 5, true, false, true, []⟩ : TransferFundsSaga).on_bank_account_transaction_appended
        ⟨1, 5, some 0⟩).2 = [.succeeded]
    ∧ ((⟨0, 1, 5, true, false, true, []⟩ : TransferFundsSaga).on_bank_account_transaction_appended
        ⟨1, 5, some 0⟩).1.has_succeeded = true
    ∧ ((⟨0, 1, 5, true, false, true, []⟩ : TransferFundsSaga).on_bank_account_transaction_appended
        ⟨1, 5, some 0⟩).1.has_errored = true := by
  refine ⟨?_, ?_, ?_⟩ <;>
    norm_num [TransferFundsSaga.on_bank_account_transaction_appended,
      TransferFundsSaga.was_debit_account_debited, TransferFundsSaga.was_credit_account_credited,
      TransferFundsSaga.was_debit_account_refunded, TransferFundsSaga.record_has_succeeded,
      triggerSaga, SagaEvent.mutate]

/-- Claim C2 (amended): in state S0 (`has_debit_account_debited = false`) a
`TransactionAppended` with `originator_id = debit_account_id` and
`amount = -saga.amount` emits exactly `CreditAccountCreditRequired` and sets
`has_debit_account_debited`; in S1 (`has_debit_account_debited = true`) a
`TransactionAppended` with `originator_id = credit_account_id` and
`amount = saga.amount` emits exactly `Succeeded`, after which `has_succeeded`
is true and `has_errored` is unchanged (hence false whenever the saga had not
previously errored). -/
theorem c2_transfer_saga_transitions (s : TransferFundsSaga)
    (e : TransactionAppendedNotice) :
    (s.has_debit_account_debited = false → e.originator_id = s.debit_account_id →
      e.amount = -s.amount →
      s.on_bank_account_transaction_appended e =
        ({ s with has_debit_account_debited := true },
          [.creditAccountCreditRequired s.credit_account_id s.amount]))
    ∧ (s.has_debit_account_debited = true → e.originator_id = s.credit_account_id →
      e.amount = s.amount →
      s.on_bank_account_transaction_appended e =
        ({ s with has_succeeded := true }, [.succeeded])) := by
  constructor
  · intro h1 h2 h3
    simp [TransferFundsSaga.on_bank_account_transaction_appended,
      TransferFundsSaga.was_debit_account_debited,
      TransferFundsSaga.require_credit_account_credit, triggerSaga, SagaEvent.mutate,
      h1, h2, h3]
  · intro h1 h2 h3
    simp [TransferFundsSaga.on_bank_account_transaction_appended,
      TransferFundsSaga.was_debit_account_debited, TransferFundsSaga.was_credit_account_credited,
      TransferFundsSaga.record_has_succeeded, triggerSaga, SagaEvent.mutate,
      h1, h2, h3]

/-- Claim C2 (amended), witnessed on a fresh saga receiving its debit leg. -/
theorem c2_transfer_saga_transitions_witness :
    (newTransferFundsSaga 0 1 5).on_bank_account_transaction_appended ⟨0, -5, some 7⟩ =
      (⟨0, 1, 5, true, false, false, []⟩, [.creditAccountCreditRequired 1 5]) :=
  (c2_transfer_saga_transitions (newTransferFundsSaga 0 1 5) ⟨0, -5, some 7⟩).1
    rfl rfl rfl

/-- Claim C3, counterexample: when `debit_account_id = credit_account_id`,
the debit branch of `on_bank_account_error_recorded` is checked first, so a
credit-leg `ErrorRecorded` emits `Errored(error)` instead of the
`DebitAccountRefundRequired` the claim asserts. -/
theorem c3_counterexample :
    ((⟨0, 0, 5, true, false, false, []⟩ : TransferFundsSaga).on_bank_account_error_recorded
        ⟨0, .accountClosed 0, some 1⟩).2 = [.errored (some (.accountClosed 0))]
    ∧ ((⟨0, 0, 5, true, false, false, []⟩ : TransferFundsSaga).on_bank_account_error_recorded
        ⟨0, .accountClosed 0, some 1⟩).2 ≠
      [.debitAccountRefundRequired 0 5 (.accountClosed 0)] := by
  have h : ((⟨0, 0, 5, true, false, false, []⟩ : TransferFundsSaga).on_bank_account_error_recorded
      ⟨0, .accountClosed 0, some 1⟩).2 = [.errored (some (.accountClosed 0))] := by
    norm_num [TransferFundsSaga.on_bank_account_error_recorded,
      TransferFundsSaga.has_debit_account_errored, TransferFundsSaga.has_credit_account_errored,
      TransferFundsSaga.record_has_errored, triggerSaga, SagaEvent.mutate]
  refine ⟨h, ?_⟩
  rw [h]
  intro heq
  exact SagaEvent.noConfusion (List.cons.injEq .. ▸ heq).1

/-- Claim C3 (amended): provided `debit_account_id ≠ credit_account_id` (the
debit branch is checked first and would otherwise win), a saga in S1 with an
empty error list processing a credit-leg `ErrorRecorded` emits exactly
`DebitAccountRefundRequired` carrying that error and appends the error to
`errors`; the subsequent `TransactionAppended` with
`originator_id = debit_account_id` and `amount = saga.amount` emits `Errored`
with error payload `none`, after which `has_errored` is true and `errors`
still contains exactly the one credit-leg error. -/
theorem c3_refund_path (s : TransferFundsSaga) (err : TransactionError)
    (t1 t2 : Option Nat)
    (h0 : s.has_debit_account_debited = true)
    (hne : s.debit_account_id ≠ s.credit_account_id)
    (herrs : s.errors = []) :
    (s.on_bank_account_error_recorded ⟨s.credit_account_id, err, t1⟩ =
      ({ s with errors := [err] },
        [.debitAccountRefundRequired s.debit_account_id s.amount err]))
    ∧ (({ s with errors := [err] } : TransferFundsSaga).on_bank_account_transaction_appended
        ⟨s.debit_account_id, s.amount, t2⟩ =
      ({ s with errors := [err], has_errored := true }, [.errored none])) := by
  constructor
  · simp [TransferFundsSaga.on_bank_account_error_recorded,
      TransferFundsSaga.has_debit_account_errored, TransferFundsSaga.has_credit_account_errored,
      TransferFundsSaga.require_debit_account_refund, triggerSaga, SagaEvent.mutate,
      hne, Ne.symm hne, herrs]
  · simp [TransferFundsSaga.on_bank_account_transaction_appended,
      TransferFundsSaga.was_debit_account_debited, TransferFundsSaga.was_credit_account_credited,
      TransferFundsSaga.was_debit_account_refunded, TransferFundsSaga.record_has_errored,
      triggerSaga, SagaEvent.mutate, h0, hne, Ne.symm hne]

/-- Claim C3 (amended), witnessed on a two-account saga whose credit leg was
rejected because the credit account was closed. -/
theorem c3_refund_path_witness :
    ((⟨0, 1, 5, true, false, false, []⟩ : TransferFundsSaga).on_bank_account_error_recorded
        ⟨1, .accountClosed 1, some 9⟩ =
      (⟨0, 1, 5, true, false, false, [.accountClosed 1]⟩,
        [.debitAccountRefundRequired 0 5 (.accountClosed 1)]))
    ∧ ((⟨0, 1, 5, true, false, false, [.accountClosed 1]⟩ : TransferFundsSaga).on_bank_account_transaction_appended
        ⟨0, 5, some 9⟩ =
      (⟨0, 1, 5, true, false, true, [.accountClosed 1]⟩, [.errored none])) :=
  c3_refund_path ⟨0, 1, 5, true, false, false, []⟩ (.accountClosed 1)
    (some 9) (some 9) rfl (by decide) rfl

/-- Claim C8, counterexample: with `debit_account_id = credit_account_id` and
an event carrying `amount = saga.amount` in state S1, both
`was_credit_account_credited` and `was_debit_account_refunded` hold, so the
three conditions are not pairwise mutually exclusive for arbitrary saga
states. -/
theorem c8_counterexample :
    (⟨0, 0, 5, true, false, false, []⟩ : TransferFundsSaga).was_credit_account_credited
        ⟨0, 5, none⟩ = true
    ∧ (⟨0, 0, 5, true, false, false, []⟩ : TransferFundsSaga).was_debit_account_refunded
        ⟨0, 5, none⟩ = true := by
  constructor <;>
    norm_num [TransferFundsSaga.was_credit_account_credited,
      TransferFundsSaga.was_debit_account_refunded]

/-- Claim C8 (amended): `was_debit_account_debited` is exclusive with each of
the other two conditions unconditionally (it requires
`has_debit_account_debited = false`, they require it true);
`was_credit_account_credited` and `was_debit_account_refunded` are mutually
exclusive provided `debit_account_id ≠ credit_account_id`; and when none of
the three conditions holds, processing the `TransactionAppended` emits no
event and leaves the saga state unchanged. -/
theorem c8_transition_conditions (s : TransferFundsSaga)
    (e : TransactionAppendedNotice) :
    (s.was_debit_account_debited e = true → s.was_credit_account_credited e = false)
    ∧ (s.was_debit_account_debited e = true → s.was_debit_account_refunded e = false)
    ∧ (s.debit_account_id ≠ s.credit_account_id →
      ¬(s.was_credit_account_credited e = true ∧ s.was_debit_account_refunded e = true))
    ∧ (s.was_debit_account_debited e = false → s.was_credit_account_credited e = false →
      s.was_debit_account_refunded e = false →
      s.on_bank_account_transaction_appended e = (s, [])) := by
  refine ⟨?_, ?_, ?_, ?_⟩
  · intro h
    simp [TransferFundsSaga.was_debit_account_debited] at h
    simp [TransferFundsSaga.was_credit_account_credited, h.1.1]
  · intro h
    simp [TransferFundsSaga.was_debit_account_debited] at h
    simp [TransferFundsSaga.was_debit_account_refunded, h.1.1]
  · rintro hne ⟨h1, h2⟩
    simp [TransferFundsSaga.was_credit_account_credited] at h1
    simp [TransferFundsSaga.was_debit_account_refunded] at h2
    exact hne (h2.1.2.symm.trans h1.1.2)
  · intro h1 h2 h3
    simp [TransferFundsSaga.on_bank_account_transaction_appended, h1, h2, h3]

/-- Claim C8 (amended), witnessed: an unrelated `TransactionAppended` (wrong
originator) is ignored by a fresh saga. -/
theorem c8_transition_conditions_witness :
    (newTransferFundsSaga 0 1 5).on_bank_account_transaction_appended ⟨2, 7, none⟩ =
      (newTransferFundsSaga 0 1 5, []) :=
  (c8_transition_conditions (newTransferFundsSaga 0 1 5) ⟨2, 7, none⟩).2.2.2
    (by norm_num [TransferFundsSaga.was_debit_account_debited, newTransferFundsSaga])
    (by norm_num [TransferFundsSaga.was_credit_account_credited, newTransferFundsSaga])
    (by norm_num [TransferFundsSaga.was_debit_account_refunded, newTransferFundsSaga])

lemma solvent_preserved_guarded (a b : BankAccount) (h : GuardedAccountStep a b)
    (hs : solvent a) : solvent b := by
  cases h with
  | append amount tid h =>
    by_cases hc : a.is_closed
    · rw [append_transaction_of_closed a amount tid hc] at h
      simp at h
    · by_cases hf : a.balance + amount < -a.overdraft_limit
      · rw [append_transaction_of_insufficient a amount tid (by simpa using hc) hf] at h
        simp at h
      · rw [append_transaction_of_ok a amount tid (by simpa using hc) hf]
        simpa [solvent] using le_of_not_lt hf
  | setLimit limit r hg h h2 =>
    by_cases hl : 0 < limit
    · by_cases hc : a.is_closed
      · rw [set_overdraft_limit_of_closed a limit hl hc] at h
        cases Option.some.injEq .. ▸ h
        simp at h2
      · rw [set_overdraft_limit_of_ok a limit hl (by simpa using hc)] at h
        cases Option.some.injEq .. ▸ h
        simpa [solvent] using neg_le.mp hg
    · rw [set_overdraft_limit_of_nonpos a limit (le_of_not_lt hl)] at h
      cases h
  | close =>
    simpa [solvent, BankAccount.close, trigger, BankAccountEvent.mutate] using hs

/-- Claim C4, counterexample: the state with balance `-300` and overdraft
limit `100` is reachable from a new account by successful operations
(`set_overdraft_limit 500`, `append_transaction (-300)`,
`set_overdraft_limit 100` — the code performs no funds check when lowering
the limit), yet it violates `balance ≥ -overdraft_limit`. -/
theorem c4_counterexample :
    Relation.ReflTransGen AccountStep (newAccount 0) ⟨0, -300, 100, false⟩
    ∧ ¬ solvent (⟨0, -300, 100, false⟩ : BankAccount) := by
  constructor
  · have s1 : AccountStep (newAccount 0) ⟨0, 0, 500, false⟩ :=
      AccountStep.setLimit (newAccount 0) 500
        ⟨⟨0, 0, 500, false⟩, [.overdraftLimitSet 500], none⟩
        (by rw [set_overdraft_limit_of_ok (newAccount 0) 500 (by norm_num) rfl]
            norm_num [newAccount]) rfl
    have e2 : ((⟨0, 0, 500, false⟩ : BankAccount).append_transaction (-300) none).account =
        ⟨0, -300, 500, false⟩ := by
      rw [append_transaction_of_ok ⟨0, 0, 500, false⟩ (-300) none rfl (by norm_num)]
      norm_num
    have s2 : AccountStep (⟨0, 0, 500, false⟩ : BankAccount) ⟨0, -300, 500, false⟩ :=
      e2 ▸ AccountStep.append ⟨0, 0, 500, false⟩ (-300) none
        (by rw [append_transaction_of_ok ⟨0, 0, 500, false⟩ (-300) none rfl (by norm_num)])
    have s3 : AccountStep (⟨0, -300, 500, false⟩ : BankAccount) ⟨0, -300, 100, false⟩ :=
      AccountStep.setLimit ⟨0, -300, 500, false⟩ 100
        ⟨⟨0, -300, 100, false⟩, [.overdraftLimitSet 100], none⟩
        (by rw [set_overdraft_limit_of_ok ⟨0, -300, 500, false⟩ 100 (by norm_num) rfl]) rfl
    exact ((Relation.ReflTransGen.single s1).tail s2).tail s3
  · simp [solvent]
    norm_num

/-- Claim C4 (amended): account solvency (`balance ≥ -overdraft_limit`) holds
in every state reachable from a newly created account by successful
operations, provided each `set_overdraft_limit` call satisfies
`-balance ≤ limit` at the time of the call.  `append_transaction` and
`close` preserve solvency unconditionally, but `set_overdraft_limit` with a
limit below `-balance` does not (the code performs no funds check there), so
the guard is necessary — see the counterexample. -/
theorem c4_solvency_invariant (i : Nat) (s : BankAccount)
    (h : Relation.ReflTransGen GuardedAccountStep (newAccount i) s) :
    solvent s := by
  induction h with
  | refl => simp [solvent, newAccount]
  | tail _ hstep ih => exact solvent_preserved_guarded _ _ hstep ih

/-- Claim C4 (amended), witnessed on the chain new account → close. -/
theorem c4_solvency_invariant_witness :
    solvent ((newAccount 3).close.account) :=
  c4_solvency_invariant 3 (newAccount 3).close.account
    (Relation.ReflTransGen.single (GuardedAccountStep.close (newAccount 3)))

/-- Claim C5, counterexample: a transfer with `debit_account_id =
credit_account_id` (a self-transfer of 50 on an account holding 200) runs to
quiescence with the saga `Succeeded`, yet the debit account's balance is
unchanged at 200 rather than decreased by 50. -/
theorem c5_counterexample :
    (runTransferSaga (fun i => if i = 0 then ⟨0, 200, 0, false⟩ else ⟨i, 0, 0, false⟩)
        0 0 50 99).2.has_succeeded = true
    ∧ ((runTransferSaga (fun i => if i = 0 then ⟨0, 200, 0, false⟩ else ⟨i, 0, 0, false⟩)
        0 0 50 99).1 0).balance = 200
    ∧ ((runTransferSaga (fun i => if i = 0 then ⟨0, 200, 0, false⟩ else ⟨i, 0, 0, false⟩)
        0 0 50 99).1 0).balance ≠
      ((fun i => if i = 0 then (⟨0, 200, 0, false⟩ : BankAccount) else ⟨i, 0, 0, false⟩)
        0).balance - 50 := by
  refine ⟨?_, ?_, ?_⟩ <;>
    norm_num [runTransferSaga, driver, appendTransactionPolicy, BankAccount.append_transaction,
      check_account_is_not_closed, check_has_sufficient_funds, trigger, BankAccountEvent.mutate,
      BankAccount.record_error,
      sagasPolicyOnAccountEvent, accountsPolicyOnSagaEvents, accountsPolicyOnSagaEvent,
      TransferFundsSaga.on_bank_account_transaction_appended,
      TransferFundsSaga.on_bank_account_error_recorded,
      TransferFundsSaga.has_debit_account_errored, TransferFundsSaga.has_credit_account_errored,
      TransferFundsSaga.was_debit_account_debited, TransferFundsSaga.was_credit_account_credited,
      TransferFundsSaga.was_debit_account_refunded,
      TransferFundsSaga.require_credit_account_credit, TransferFundsSaga.record_has_succeeded,
      TransferFundsSaga.record_has_errored, TransferFundsSaga.require_debit_account_refund,
      triggerSaga, SagaEvent.mutate, newTransferFundsSaga, updateStore]

/-- Claim C5 (amended): for distinct debit and credit accounts, every
`transfer_funds(debit_id, credit_id, m)` whose saga reaches `Succeeded` when
the pipeline is run to quiescence decreases the debit account's balance by
exactly `m`, increases the credit account's balance by exactly `m`, and the
sum of the two balance changes is zero. -/
theorem c5_conservation_under_success (store : Store) (d c : Nat) (m : Rat)
    (tid : Nat) (hdc : d ≠ c)
    (hs : (runTransferSaga store d c m tid).2.has_succeeded = true) :
    ((runTransferSaga store d c m tid).1 d).balance = (store d).balance - m
    ∧ ((runTransferSaga store d c m tid).1 c).balance = (store c).balance + m
    ∧ (((runTransferSaga store d c m tid).1 d).balance - (store d).balance)
      + (((runTransferSaga store d c m tid).1 c).balance - (store c).balance) = 0 := by
  by_cases h1 : (store d).is_closed
  · exfalso
    revert hs
    simp [runTransferSaga, driver, appendTransactionPolicy, BankAccount.append_transaction,
      check_account_is_not_closed, check_has_sufficient_funds, trigger, BankAccountEvent.mutate,
      BankAccount.record_error,
      sagasPolicyOnAccountEvent, accountsPolicyOnSagaEvents, accountsPolicyOnSagaEvent,
      TransferFundsSaga.on_bank_account_transaction_appended,
      TransferFundsSaga.on_bank_account_error_recorded,
      TransferFundsSaga.has_debit_account_errored, TransferFundsSaga.has_credit_account_errored,
      TransferFundsSaga.was_debit_account_debited, TransferFundsSaga.was_credit_account_credited,
      TransferFundsSaga.was_debit_account_refunded,
      TransferFundsSaga.require_credit_account_credit, TransferFundsSaga.record_has_succeeded,
      TransferFundsSaga.record_has_errored, TransferFundsSaga.require_debit_account_refund,
      triggerSaga, SagaEvent.mutate, newTransferFundsSaga,
      updateStore_same, updateStore_other, Ne.symm hdc, hdc, h1]
  · by_cases h2 : (store d).balance + -m < -(store d).overdraft_limit
    · exfalso
      revert hs
      simp [runTransferSaga, driver, appendTransactionPolicy, BankAccount.append_transaction,
        check_account_is_not_closed, check_has_sufficient_funds, trigger, BankAccountEvent.mutate,
        BankAccount.record_error,
        sagasPolicyOnAccountEvent, accountsPolicyOnSagaEvents, accountsPolicyOnSagaEvent,
        TransferFundsSaga.on_bank_account_transaction_appended,
        TransferFundsSaga.on_bank_account_error_recorded,
        TransferFundsSaga.has_debit_account_errored, TransferFundsSaga.has_credit_account_errored,
        TransferFundsSaga.was_debit_account_debited, TransferFundsSaga.was_credit_account_credited,
        TransferFundsSaga.was_debit_account_refunded,
        TransferFundsSaga.require_credit_account_credit, TransferFundsSaga.record_has_succeeded,
        TransferFundsSaga.record_has_errored, TransferFundsSaga.require_debit_account_refund,
        triggerSaga, SagaEvent.mutate, newTransferFundsSaga,
        updateStore_same, updateStore_other, Ne.symm hdc, hdc, h1, h2]
    · by_cases h3 : (store c).is_closed
      · exfalso
        revert hs
        by_cases h5 : (store d).balance < -(store d).overdraft_limit <;>
        simp [runTransferSaga, driver, appendTransactionPolicy, BankAccount.append_transaction,
          check_account_is_not_closed, check_has_sufficient_funds, trigger, BankAccountEvent.mutate,
          BankAccount.record_error,
          sagasPolicyOnAccountEvent, accountsPolicyOnSagaEvents, accountsPolicyOnSagaEvent,
          TransferFundsSaga.on_bank_account_transaction_appended,
          TransferFundsSaga.on_bank_account_error_recorded,
          TransferFundsSaga.has_debit_account_errored, TransferFundsSaga.has_credit_account_errored,
          TransferFundsSaga.was_debit_account_debited, TransferFundsSaga.was_credit_account_credited,
          TransferFundsSaga.was_debit_account_refunded,
          TransferFundsSaga.require_credit_account_credit, TransferFundsSaga.record_has_succeeded,
          TransferFundsSaga.record_has_errored, TransferFundsSaga.require_debit_account_refund,
          triggerSaga, SagaEvent.mutate, newTransferFundsSaga, neg_add_cancel_right,
          updateStore_same, updateStore_other, Ne.symm hdc, hdc, h1, h2, h3, h5]
      · by_cases h4 : (store c).balance + m < -(store c).overdraft_limit
        · exfalso
          revert hs
          by_cases h5 : (store d).balance < -(store d).overdraft_limit <;>
          simp [runTransferSaga, driver, appendTransactionPolicy, BankAccount.append_transaction,
            check_account_is_not_closed, check_has_sufficient_funds, trigger, BankAccountEvent.mutate,
            BankAccount.record_error,
            sagasPolicyOnAccountEvent, accountsPolicyOnSagaEvents, accountsPolicyOnSagaEvent,
            TransferFundsSaga.on_bank_account_transaction_appended,
            TransferFundsSaga.on_bank_account_error_recorded,
            TransferFundsSaga.has_debit_account_errored, TransferFundsSaga.has_credit_account_errored,
            TransferFundsSaga.was_debit_account_debited, TransferFundsSaga.was_credit_account_credited,
            TransferFundsSaga.was_debit_account_refunded,
            TransferFundsSaga.require_credit_account_credit, TransferFundsSaga.record_has_succeeded,
            TransferFundsSaga.record_has_errored, TransferFundsSaga.require_debit_account_refund,
            triggerSaga, SagaEvent.mutate, newTransferFundsSaga, neg_add_cancel_right,
            updateStore_same, updateStore_other, Ne.symm hdc, hdc, h1, h2, h3, h4, h5]
        · have hbd : ((runTransferSaga store d c m tid).1 d).balance =
              (store d).balance - m := by
            simp [runTransferSaga, driver, appendTransactionPolicy, BankAccount.append_transaction,
              check_account_is_not_closed, check_has_sufficient_funds, trigger, BankAccountEvent.mutate,
              BankAccount.record_error,
              sagasPolicyOnAccountEvent, accountsPolicyOnSagaEvents, accountsPolicyOnSagaEvent,
              TransferFundsSaga.on_bank_account_transaction_appended,
              TransferFundsSaga.on_bank_account_error_recorded,
              TransferFundsSaga.has_debit_account_errored, TransferFundsSaga.has_credit_account_errored,
              TransferFundsSaga.was_debit_account_debited, TransferFundsSaga.was_credit_account_credited,
              TransferFundsSaga.was_debit_account_refunded,
              TransferFundsSaga.require_credit_account_credit, TransferFundsSaga.record_has_succeeded,
              TransferFundsSaga.record_has_errored, TransferFundsSaga.require_debit_account_refund,
              triggerSaga, SagaEvent.mutate, newTransferFundsSaga, sub_eq_add_neg,
              updateStore_same, updateStore_other, Ne.symm hdc, hdc, h1, h2, h3, h4]
          have hbc : ((runTransferSaga store d c m tid).1 c).balance =
              (store c).balance + m := by
            simp [runTransferSaga, driver, appendTransactionPolicy, BankAccount.append_transaction,
              check_account_is_not_closed, check_has_sufficient_funds, trigger, BankAccountEvent.mutate,
              BankAccount.record_error,
              sagasPolicyOnAccountEvent, accountsPolicyOnSagaEvents, accountsPolicyOnSagaEvent,
              TransferFundsSaga.on_bank_account_transaction_appended,
              TransferFundsSaga.on_bank_account_error_recorded,
              TransferFundsSaga.has_debit_account_errored, TransferFundsSaga.has_credit_account_errored,
              TransferFundsSaga.was_debit_account_debited, TransferFundsSaga.was_credit_account_credited,
              TransferFundsSaga.was_debit_account_refunded,
              TransferFundsSaga.require_credit_account_credit, TransferFundsSaga.record_has_succeeded,
              TransferFundsSaga.record_has_errored, TransferFundsSaga.require_debit_account_refund,
              triggerSaga, SagaEvent.mutate, newTransferFundsSaga, sub_eq_add_neg,
              updateStore_same, updateStore_other, Ne.symm hdc, hdc, h1, h2, h3, h4]
          exact ⟨hbd, hbc, by rw [hbd, hbc]; ring⟩

/-- Claim C5 (amended), witnessed on spec scenario 4: transfer 50 from an
account holding 200 to an empty one. -/
theorem c5_conservation_under_success_witness :
    ((runTransferSaga (fun i => if i = 0 then ⟨0, 200, 0, false⟩ else ⟨i, 0, 0, false⟩)
        0 1 50 99).1 0).balance =
      ((fun i => if i = 0 then (⟨0, 200, 0, false⟩ : BankAccount) else ⟨i, 0, 0, false⟩)
        0).balance - 50
    ∧ ((runTransferSaga (fun i => if i = 0 then ⟨0, 200, 0, false⟩ else ⟨i, 0, 0, false⟩)
        0 1 50 99).1 1).balance =
      ((fun i => if i = 0 then (⟨0, 200, 0, false⟩ : BankAccount) else ⟨i, 0, 0, false⟩)
        1).balance + 50
    ∧ (((runTransferSaga (fun i => if i = 0 then ⟨0, 200, 0, false⟩ else ⟨i, 0, 0, false⟩)
        0 1 50 99).1 0).balance -
      ((fun i => if i = 0 then (⟨0, 200, 0, false⟩ : BankAccount) else ⟨i, 0, 0, false⟩)
        0).balance)
      + (((runTransferSaga (fun i => if i = 0 then ⟨0, 200, 0, false⟩ else ⟨i, 0, 0, false⟩)
        0 1 50 99).1 1).balance -
      ((fun i => if i = 0 then (⟨0, 200, 0, false⟩ : BankAccount) else ⟨i, 0, 0, false⟩)
        1).balance) = 0 :=
  c5_conservation_under_success
    (fun i => if i = 0 then ⟨0, 200, 0, false⟩ else ⟨i, 0, 0, false⟩) 0 1 50 99
    (by decide)
    (by norm_num [runTransferSaga, driver, appendTransactionPolicy, BankAccount.append_transaction,
      check_account_is_not_closed, check_has_sufficient_funds, trigger, BankAccountEvent.mutate,
      BankAccount.record_error,
      sagasPolicyOnAccountEvent, accountsPolicyOnSagaEvents, accountsPolicyOnSagaEvent,
      TransferFundsSaga.on_bank_account_transaction_appended,
      TransferFundsSaga.on_bank_account_error_recorded,
      TransferFundsSaga.has_debit_account_errored, TransferFundsSaga.has_credit_account_errored,
      TransferFundsSaga.was_debit_account_debited, TransferFundsSaga.was_credit_account_credited,
      TransferFundsSaga.was_debit_account_refunded,
      TransferFundsSaga.require_credit_account_credit, TransferFundsSaga.record_has_succeeded,
      TransferFundsSaga.record_has_errored, TransferFundsSaga.require_debit_account_refund,
      triggerSaga, SagaEvent.mutate, newTransferFundsSaga, updateStore])

/-- Claim C6, counterexample: starting from an insolvent debit account
(balance `-300`, overdraft limit `100` — itself reachable, see the claim C4
counterexample) a transfer of `-250` fails on the credit leg, the refund leg
then fails with `InsufficientFunds`, and the saga reaches `Errored` with the
debit account's balance at `-50` instead of its initial `-300`. -/
theorem c6_counterexample :
    (runTransferSaga (fun i => if i = 0 then ⟨0, -300, 100, false⟩ else ⟨i, 0, 0, false⟩)
        0 1 (-250) 99).2.has_errored = true
    ∧ ((runTransferSaga (fun i => if i = 0 then ⟨0, -300, 100, false⟩ else ⟨i, 0, 0, false⟩)
        0 1 (-250) 99).1 0).balance = -50
    ∧ ((runTransferSaga (fun i => if i = 0 then ⟨0, -300, 100, false⟩ else ⟨i, 0, 0, false⟩)
        0 1 (-250) 99).1 0).balance ≠
      ((fun i => if i = 0 then (⟨0, -300, 100, false⟩ : BankAccount) else ⟨i, 0, 0, false⟩)
        0).balance := by
  refine ⟨?_, ?_, ?_⟩ <;>
    norm_num [runTransferSaga, driver, appendTransactionPolicy, BankAccount.append_transaction,
      check_account_is_not_closed, check_has_sufficient_funds, trigger, BankAccountEvent.mutate,
      BankAccount.record_error,
      sagasPolicyOnAccountEvent, accountsPolicyOnSagaEvents, accountsPolicyOnSagaEvent,
      TransferFundsSaga.on_bank_account_transaction_appended,
      TransferFundsSaga.on_bank_account_error_recorded,
      TransferFundsSaga.has_debit_account_errored, TransferFundsSaga.has_credit_account_errored,
      TransferFundsSaga.was_debit_account_debited, TransferFundsSaga.was_credit_account_credited,
      TransferFundsSaga.was_debit_account_refunded,
      TransferFundsSaga.require_credit_account_credit, TransferFundsSaga.record_has_succeeded,
      TransferFundsSaga.record_has_errored, TransferFundsSaga.require_debit_account_refund,
      triggerSaga, SagaEvent.mutate, newTransferFundsSaga, updateStore]

/-- Claim C6 (amended): provided the debit account initially satisfies the
solvency invariant `balance ≥ -overdraft_limit` (which guarantees the refund
leg cannot fail), every transfer whose saga reaches `Errored` when the
pipeline is run to quiescence leaves both accounts' balances equal to their
values before the saga started; in particular when the credit leg fails after
the debit leg succeeded, the `DebitAccountRefundRequired` leg re-credits the
debit account by the transfer amount. -/
theorem c6_conservation_under_failure (store : Store) (d c : Nat) (m : Rat)
    (tid : Nat)
    (hsolv : -(store d).overdraft_limit ≤ (store d).balance)
    (he : (runTransferSaga store d c m tid).2.has_errored = true) :
    ((runTransferSaga store d c m tid).1 d).balance = (store d).balance
    ∧ ((runTransferSaga store d c m tid).1 c).balance = (store c).balance := by
  have h5 : ¬((store d).balance < -(store d).overdraft_limit) := not_lt.mpr hsolv
  by_cases hdc : d = c
  · subst hdc
    by_cases h1 : (store d).is_closed
    · constructor <;>
        simp [runTransferSaga, driver, appendTransactionPolicy, BankAccount.append_transaction,
          check_account_is_not_closed, check_has_sufficient_funds, trigger, BankAccountEvent.mutate,
          BankAccount.record_error,
          sagasPolicyOnAccountEvent, accountsPolicyOnSagaEvents, accountsPolicyOnSagaEvent,
          TransferFundsSaga.on_bank_account_transaction_appended,
          TransferFundsSaga.on_bank_account_error_recorded,
          TransferFundsSaga.has_debit_account_errored, TransferFundsSaga.has_credit_account_errored,
          TransferFundsSaga.was_debit_account_debited, TransferFundsSaga.was_credit_account_credited,
          TransferFundsSaga.was_debit_account_refunded,
          TransferFundsSaga.require_credit_account_credit, TransferFundsSaga.record_has_succeeded,
          TransferFundsSaga.record_has_errored, TransferFundsSaga.require_debit_account_refund,
          triggerSaga, SagaEvent.mutate, newTransferFundsSaga,
          updateStore_same, h1]
    · by_cases h2 : (store d).balance + -m < -(store d).overdraft_limit
      · constructor <;>
          simp [runTransferSaga, driver, appendTransactionPolicy, BankAccount.append_transaction,
            check_account_is_not_closed, check_has_sufficient_funds, trigger, BankAccountEvent.mutate,
            BankAccount.record_error,
            sagasPolicyOnAccountEvent, accountsPolicyOnSagaEvents, accountsPolicyOnSagaEvent,
            TransferFundsSaga.on_bank_account_transaction_appended,
            TransferFundsSaga.on_bank_account_error_recorded,
            TransferFundsSaga.has_debit_account_errored, TransferFundsSaga.has_credit_account_errored,
            TransferFundsSaga.was_debit_account_debited, TransferFundsSaga.was_credit_account_credited,
            TransferFundsSaga.was_debit_account_refunded,
            TransferFundsSaga.require_credit_account_credit, TransferFundsSaga.record_has_succeeded,
            TransferFundsSaga.record_has_errored, TransferFundsSaga.require_debit_account_refund,
            triggerSaga, SagaEvent.mutate, newTransferFundsSaga,
            updateStore_same, h1, h2]
      · exfalso
        revert he
        simp [runTransferSaga, driver, appendTransactionPolicy, BankAccount.append_transaction,
          check_account_is_not_closed, check_has_sufficient_funds, trigger, BankAccountEvent.mutate,
          BankAccount.record_error,
          sagasPolicyOnAccountEvent, accountsPolicyOnSagaEvents, accountsPolicyOnSagaEvent,
          TransferFundsSaga.on_bank_account_transaction_appended,
          TransferFundsSaga.on_bank_account_error_recorded,
          TransferFundsSaga.has_debit_account_errored, TransferFundsSaga.has_credit_account_errored,
          TransferFundsSaga.was_debit_account_debited, TransferFundsSaga.was_credit_account_credited,
          TransferFundsSaga.was_debit_account_refunded,
          TransferFundsSaga.require_credit_account_credit, TransferFundsSaga.record_has_succeeded,
          TransferFundsSaga.record_has_errored, TransferFundsSaga.require_debit_account_refund,
          triggerSaga, SagaEvent.mutate, newTransferFundsSaga, neg_add_cancel_right,
          updateStore_same, h1, h2, h5]
  · by_cases h1 : (store d).is_closed
    · constructor <;>
        simp [runTransferSaga, driver, appendTransactionPolicy, BankAccount.append_transaction,
          check_account_is_not_closed, check_has_sufficient_funds, trigger, BankAccountEvent.mutate,
          BankAccount.record_error,
          sagasPolicyOnAccountEvent, accountsPolicyOnSagaEvents, accountsPolicyOnSagaEvent,
          TransferFundsSaga.on_bank_account_transaction_appended,
          TransferFundsSaga.on_bank_account_error_recorded,
          TransferFundsSaga.has_debit_account_errored, TransferFundsSaga.has_credit_account_errored,
          TransferFundsSaga.was_debit_account_debited, TransferFundsSaga.was_credit_account_credited,
          TransferFundsSaga.was_debit_account_refunded,
          TransferFundsSaga.require_credit_account_credit, TransferFundsSaga.record_has_succeeded,
          TransferFundsSaga.record_has_errored, TransferFundsSaga.require_debit_account_refund,
          triggerSaga, SagaEvent.mutate, newTransferFundsSaga,
          updateStore_same, updateStore_other, Ne.symm hdc, hdc, h1]
    · by_cases h2 : (store d).balance + -m < -(store d).overdraft_limit
      · constructor <;>
          simp [runTransferSaga, driver, appendTransactionPolicy, BankAccount.append_transaction,
            check_account_is_not_closed, check_has_sufficient_funds, trigger, BankAccountEvent.mutate,
            BankAccount.record_error,
            sagasPolicyOnAccountEvent, accountsPolicyOnSagaEvents, accountsPolicyOnSagaEvent,
            TransferFundsSaga.on_bank_account_transaction_appended,
            TransferFundsSaga.on_bank_account_error_recorded,
            TransferFundsSaga.has_debit_account_errored, TransferFundsSaga.has_credit_account_errored,
            TransferFundsSaga.was_debit_account_debited, TransferFundsSaga.was_credit_account_credited,
            TransferFundsSaga.was_debit_account_refunded,
            TransferFundsSaga.require_credit_account_credit, TransferFundsSaga.record_has_succeeded,
            TransferFundsSaga.record_has_errored, TransferFundsSaga.require_debit_account_refund,
            triggerSaga, SagaEvent.mutate, newTransferFundsSaga,
            updateStore_same, updateStore_other, Ne.symm hdc, hdc, h1, h2]
      · by_cases h3 : (store c).is_closed
        · constructor <;>
            simp [runTransferSaga, driver, appendTransactionPolicy, BankAccount.append_transaction,
              check_account_is_not_closed, check_has_sufficient_funds, trigger, BankAccountEvent.mutate,
              BankAccount.record_error,
              sagasPolicyOnAccountEvent, accountsPolicyOnSagaEvents, accountsPolicyOnSagaEvent,
              TransferFundsSaga.on_bank_account_transaction_appended,
              TransferFundsSaga.on_bank_account_error_recorded,
              TransferFundsSaga.has_debit_account_errored, TransferFundsSaga.has_credit_account_errored,
              TransferFundsSaga.was_debit_account_debited, TransferFundsSaga.was_credit_account_credited,
              TransferFundsSaga.was_debit_account_refunded,
              TransferFundsSaga.require_credit_account_credit, TransferFundsSaga.record_has_succeeded,
              TransferFundsSaga.record_has_errored, TransferFundsSaga.require_debit_account_refund,
              triggerSaga, SagaEvent.mutate, newTransferFundsSaga, neg_add_cancel_right,
              updateStore_same, updateStore_other, Ne.symm hdc, hdc, h1, h2, h3, h5]
        · by_cases h4 : (store c).balance + m < -(store c).overdraft_limit
          · constructor <;>
              simp [runTransferSaga, driver, appendTransactionPolicy, BankAccount.append_transaction,
                check_account_is_not_closed, check_has_sufficient_funds, trigger, BankAccountEvent.mutate,
                BankAccount.record_error,
                sagasPolicyOnAccountEvent, accountsPolicyOnSagaEvents, accountsPolicyOnSagaEvent,
                TransferFundsSaga.on_bank_account_transaction_appended,
                TransferFundsSaga.on_bank_account_error_recorded,
                TransferFundsSaga.has_debit_account_errored, TransferFundsSaga.has_credit_account_errored,
                TransferFundsSaga.was_debit_account_debited, TransferFundsSaga.was_credit_account_credited,
                TransferFundsSaga.was_debit_account_refunded,
                TransferFundsSaga.require_credit_account_credit, TransferFundsSaga.record_has_succeeded,
                TransferFundsSaga.record_has_errored, TransferFundsSaga.require_debit_account_refund,
                triggerSaga, SagaEvent.mutate, newTransferFundsSaga, neg_add_cancel_right,
                updateStore_same, updateStore_other, Ne.symm hdc, hdc, h1, h2, h3, h4, h5]
          · exfalso
            revert he
            simp [runTransferSaga, driver, appendTransactionPolicy, BankAccount.append_transaction,
              check_account_is_not_closed, check_has_sufficient_funds, trigger, BankAccountEvent.mutate,
              BankAccount.record_error,
              sagasPolicyOnAccountEvent, accountsPolicyOnSagaEvents, accountsPolicyOnSagaEvent,
              TransferFundsSaga.on_bank_account_transaction_appended,
              TransferFundsSaga.on_bank_account_error_recorded,
              TransferFundsSaga.has_debit_account_errored, TransferFundsSaga.has_credit_account_errored,
              TransferFundsSaga.was_debit_account_debited, TransferFundsSaga.was_credit_account_credited,
              TransferFundsSaga.was_debit_account_refunded,
              TransferFundsSaga.require_credit_account_credit, TransferFundsSaga.record_has_succeeded,
              TransferFundsSaga.record_has_errored, TransferFundsSaga.require_debit_account_refund,
              triggerSaga, SagaEvent.mutate, newTransferFundsSaga,
              updateStore_same, updateStore_other, Ne.symm hdc, hdc, h1, h2, h3, h4]

/-- Claim C6 (amended), witnessed on spec scenario 6: the credit account is
closed, the refund leg runs, and both balances end unchanged. -/
theorem c6_conservation_under_failure_witness :
    ((runTransferSaga (fun i => if i = 0 then ⟨0, 200, 0, false⟩ else ⟨i, 0, 0, true⟩)
        0 1 50 99).1 0).balance =
      ((fun i => if i = 0 then (⟨0, 200, 0, false⟩ : BankAccount) else ⟨i, 0, 0, true⟩)
        0).balance
    ∧ ((runTransferSaga (fun i => if i = 0 then ⟨0, 200, 0, false⟩ else ⟨i, 0, 0, true⟩)
        0 1 50 99).1 1).balance =
      ((fun i => if i = 0 then (⟨0, 200, 0, false⟩ : BankAccount) else ⟨i, 0, 0, true⟩)
        1).balance :=
  c6_conservation_under_failure
    (fun i => if i = 0 then ⟨0, 200, 0, false⟩ else ⟨i, 0, 0, true⟩) 0 1 50 99
    (by norm_num)
    (by norm_num [runTransferSaga, driver, appendTransactionPolicy, BankAccount.append_transaction,
      check_account_is_not_closed, check_has_sufficient_funds, trigger, BankAccountEvent.mutate,
      BankAccount.record_error,
      sagasPolicyOnAccountEvent, accountsPolicyOnSagaEvents, accountsPolicyOnSagaEvent,
      TransferFundsSaga.on_bank_account_transaction_appended,
      TransferFundsSaga.on_bank_account_error_recorded,
      TransferFundsSaga.has_debit_account_errored, TransferFundsSaga.has_credit_account_errored,
      TransferFundsSaga.was_debit_account_debited, TransferFundsSaga.was_credit_account_credited,
      TransferFundsSaga.was_debit_account_refunded,
      TransferFundsSaga.require_credit_account_credit, TransferFundsSaga.record_has_succeeded,
      TransferFundsSaga.record_has_errored, TransferFundsSaga.require_debit_account_refund,
      triggerSaga, SagaEvent.mutate, newTransferFundsSaga, updateStore])

/-- Claim C10, counterexample: a self-transfer (`debit_account_id =
credit_account_id`) of 50 on an open account holding 200 passes both
`append_transaction` calls, so `save` is reached with two staged events of
the same stream carrying the same `originator_version`; the one-batch save
is rejected as a concurrency conflict and nothing is persisted.  Neither of
the claim's two cases holds: the result is not `none` (both events saved)
and not a `TransactionError` raised before save. -/
theorem c10_counterexample :
    (transfer_funds (fun i => if i = 0 then ⟨0, 200, 0, false⟩ else ⟨i, 0, 0, false⟩)
        0 0 50).2 = some .concurrencyConflict
    ∧ (transfer_funds (fun i => if i = 0 then ⟨0, 200, 0, false⟩ else ⟨i, 0, 0, false⟩)
        0 0 50).1 =
      (fun i => if i = 0 then ⟨0, 200, 0, false⟩ else ⟨i, 0, 0, false⟩) := by
  constructor <;>
    norm_num [transfer_funds, save_two, BankAccount.append_transaction,
      check_account_is_not_closed, check_has_sufficient_funds, trigger,
      BankAccountEvent.mutate]

/-- Claim C10 (amended): `transfer_funds` never partially persists: when it
returns no error both the debit event (`-amount`) and the credit event
(`+amount`) were saved in the one batch, changing the persisted balances by
exactly `-amount` and `+amount`; on any error the persisted store is
unchanged — including the case where the debit leg succeeds in memory but
the credit leg raises because the credit account is closed, since `save` is
only called after both `append_transaction` calls succeed.  When
`debit_account_id = credit_account_id` and both appends succeed, the batch
save is rejected as a concurrency conflict (two same-version events of one
stream) and, again, nothing is persisted. -/
theorem c10_transfer_funds_atomic (store : Store) (d c : Nat) (m : Rat) :
    ((transfer_funds store d c m).2 = none →
      ((transfer_funds store d c m).1 d).balance = (store d).balance - m
      ∧ ((transfer_funds store d c m).1 c).balance = (store c).balance + m)
    ∧ (∀ e, (transfer_funds store d c m).2 = some e →
      (transfer_funds store d c m).1 = store)
    ∧ (((store d).append_transaction (-m) none).raised = none →
      (store c).is_closed = true →
      (transfer_funds store d c m).2 = some (.transaction (.accountClosed (store c).id))
      ∧ (transfer_funds store d c m).1 = store)
    ∧ (d = c → ((store d).append_transaction (-m) none).raised = none →
      ((store c).append_transaction m none).raised = none →
      (transfer_funds store d c m).2 = some .concurrencyConflict
      ∧ (transfer_funds store d c m).1 = store) := by
  by_cases h1 : (store d).is_closed
  · refine ⟨?_, ?_, ?_, ?_⟩ <;>
      simp [transfer_funds, append_transaction_of_closed (store d) (-m) none h1]
  · by_cases h2 : (store d).balance + -m < -(store d).overdraft_limit
    · refine ⟨?_, ?_, ?_, ?_⟩ <;>
        simp [transfer_funds,
          append_transaction_of_insufficient (store d) (-m) none (by simpa using h1) h2]
    · by_cases h3 : (store c).is_closed
      · refine ⟨?_, ?_, ?_, ?_⟩ <;>
          simp [transfer_funds,
            append_transaction_of_ok (store d) (-m) none (by simpa using h1) h2,
            append_transaction_of_closed (store c) m none h3]
      · by_cases h4 : (store c).balance + m < -(store c).overdraft_limit
        · refine ⟨?_, ?_, ?_, ?_⟩ <;>
            simp [transfer_funds,
              append_transaction_of_ok (store d) (-m) none (by simpa using h1) h2,
              append_transaction_of_insufficient (store c) m none (by simpa using h3) h4,
              h3]
        · by_cases hdc : d = c
          · subst hdc
            refine ⟨?_, ?_, ?_, ?_⟩ <;>
              simp [transfer_funds, save_two,
                append_transaction_of_ok (store d) (-m) none (by simpa using h1) h2,
                append_transaction_of_ok (store d) m none (by simpa using h3) h4,
                h1, h3]
          · refine ⟨?_, ?_, ?_, ?_⟩ <;>
              simp [transfer_funds, save_two,
                append_transaction_of_ok (store d) (-m) none (by simpa using h1) h2,
                append_transaction_of_ok (store c) m none (by simpa using h3) h4,
                updateStore_same, updateStore_other, Ne.symm hdc, hdc, h3, sub_eq_add_neg]

/-- Claim C10 (amended), witnessed: debit leg succeeds in memory, credit
account is closed — the error propagates and the persisted store is
untouched. -/
theorem c10_transfer_funds_atomic_witness :
    (transfer_funds (fun i => if i = 0 then ⟨0, 200, 0, false⟩ else ⟨i, 0, 0, true⟩)
        0 1 50).2 = some (.transaction (.accountClosed 1))
    ∧ (transfer_funds (fun i => if i = 0 then ⟨0, 200, 0, false⟩ else ⟨i, 0, 0, true⟩)
        0 1 50).1 =
      (fun i => if i = 0 then ⟨0, 200, 0, false⟩ else ⟨i, 0, 0, true⟩) :=
  (c10_transfer_funds_atomic
      (fun i => if i = 0 then ⟨0, 200, 0, false⟩ else ⟨i, 0, 0, true⟩) 0 1 50).2.2.1
    (by norm_num [BankAccount.append_transaction, check_account_is_not_closed,
      check_has_sufficient_funds, trigger])
    rfl

end BankAccounts
